import Mathlib

/-!
Shallow embedding of the Go learning repository (tutorial programs and the
API fragment) together with the verification of its specified properties.

Go `int` values are modelled as unbounded `Int`; Go's `/` and `%` on
integers truncate toward zero, which is `Int.tdiv` / `Int.tmod`.
A Go `error` is modelled as `Option String`: `none` is the nil error and
`some msg` an error whose `Error()` method returns `msg`.
-/

namespace Golang

/-- Embedding of `intDivision` from `src/cmd/tutorial_2/main.go`:
if the denominator is zero it returns `0, 0` and a fresh error
`"Cannot devide by Zero"`; otherwise it returns the truncated quotient,
the remainder and the nil error. -/
def intDivision (numerator denominator : Int) : Int × Int × Option String :=
  if denominator = 0 then
    (0, 0, some "Cannot devide by Zero")
  else
    (numerator.tdiv denominator, numerator.tmod denominator, none)

example : intDivision 10 2 = (5, 0, none) := by decide
example : intDivision 10 3 = (3, 1, none) := by decide
example : intDivision (-7) 3 = (-2, -1, none) := by decide
example : intDivision 7 (-3) = (-2, 1, none) := by decide
example : intDivision 5 0 = (0, 0, some "Cannot devide by Zero") := by decide

/-- C1: for a nonzero denominator, `intDivision` returns the Go quotient
(`numerator / denominator`, truncated toward zero), the Go remainder
(`numerator % denominator`) and the nil error. -/
theorem intDivision_correct_of_ne_zero (numerator denominator : Int)
    (h : denominator ≠ 0) :
    intDivision numerator denominator =
      (numerator.tdiv denominator, numerator.tmod denominator, none) := by
  simp [intDivision, h]

/-- Witness for C1 at numerator 10, denominator 3. -/
theorem intDivision_correct_of_ne_zero_witness :
    intDivision 10 3 = ((10 : Int).tdiv 3, (10 : Int).tmod 3, none) :=
  intDivision_correct_of_ne_zero 10 3 (by decide)

/-- The magnitude of a truncated remainder is the `Nat` remainder of the
magnitudes. -/
theorem natAbs_tmod (a b : Int) : (a.tmod b).natAbs = a.natAbs % b.natAbs := by
  cases a <;> cases b <;>
      simp only [Int.tmod, Int.natAbs_neg, Int.natAbs_negSucc] <;>
    rfl

/-- A truncated remainder of a nonpositive dividend is nonpositive. -/
theorem tmod_nonpos_of_nonpos (a b : Int) (ha : a ≤ 0) : a.tmod b ≤ 0 := by
  cases a with
  | ofNat m =>
    have hm0 : (m : Int) ≤ 0 := ha
    have hm : m = 0 := by omega
    subst hm
    simp [Int.zero_tmod]
  | negSucc m =>
    cases b <;>
      exact Int.neg_nonpos_of_nonneg (Int.ofNat_nonneg _)

/-- The truncated remainder is zero or carries the sign of the dividend. -/
theorem tmod_sign (a b : Int) : a.tmod b = 0 ∨ (a.tmod b).sign = a.sign := by
  rcases eq_or_ne (a.tmod b) 0 with h0 | h0
  · exact Or.inl h0
  right
  rcases Int.lt_trichotomy a 0 with hneg | hzero | hpos
  · have hle := tmod_nonpos_of_nonpos a b (Int.le_of_lt hneg)
    have hlt : a.tmod b < 0 := Int.lt_iff_le_and_ne.mpr ⟨hle, h0⟩
    rw [Int.sign_eq_neg_one_of_neg hlt, Int.sign_eq_neg_one_of_neg hneg]
  · subst hzero
    simp at h0
  · have hle := Int.tmod_nonneg b (Int.le_of_lt hpos)
    have hlt : 0 < a.tmod b := Int.lt_iff_le_and_ne.mpr ⟨hle, Ne.symm h0⟩
    rw [Int.sign_eq_one_of_pos hlt, Int.sign_eq_one_of_pos hpos]

/-- C2: `intDivision` returns a non-nil error if and only if the
denominator is zero. -/
theorem intDivision_error_iff_denominator_zero (numerator denominator : Int) :
    (intDivision numerator denominator).2.2 ≠ none ↔ denominator = 0 := by
  by_cases h : denominator = 0 <;> simp [intDivision, h]

/-- C7: on a zero denominator, `intDivision` returns quotient `0` and
remainder `0` together with an error whose message is exactly
`"Cannot devide by Zero"`. -/
theorem intDivision_zero_denominator (numerator : Int) :
    intDivision numerator 0 = (0, 0, some "Cannot devide by Zero") := by
  simp [intDivision]

/-- C8: for a nonzero denominator, the quotient and remainder returned by
`intDivision` satisfy `numerator = quotient * denominator + remainder`
with `|remainder| < |denominator|`, and the remainder is zero or has the
sign of the numerator. -/
theorem intDivision_quot_rem_characterization (numerator denominator : Int)
    (h : denominator ≠ 0) :
    numerator =
      (intDivision numerator denominator).1 * denominator +
        (intDivision numerator denominator).2.1 ∧
    (intDivision numerator denominator).2.1.natAbs < denominator.natAbs ∧
    ((intDivision numerator denominator).2.1 = 0 ∨
      (intDivision numerator denominator).2.1.sign = numerator.sign) := by
  rw [intDivision_correct_of_ne_zero numerator denominator h]
  refine ⟨(Int.tdiv_add_tmod' numerator denominator).symm, ?_, tmod_sign numerator denominator⟩
  rw [natAbs_tmod]
  exact Nat.mod_lt _ (Int.natAbs_pos.mpr h)

/-- Witness for C8 at numerator -7, denominator 3 (remainder -1 is negative,
carrying the numerator's sign). -/
theorem intDivision_quot_rem_characterization_witness :
    (-7 : Int) =
      (intDivision (-7) 3).1 * 3 + (intDivision (-7) 3).2.1 ∧
    (intDivision (-7) 3).2.1.natAbs < (3 : Int).natAbs ∧
    ((intDivision (-7) 3).2.1 = 0 ∨
      (intDivision (-7) 3).2.1.sign = (-7 : Int).sign) :=
  intDivision_quot_rem_characterization (-7) 3 (by decide)

/-- Embedding of `printMe` from `src/cmd/tutorial_2/main.go`: emits its
argument as one output line. -/
def printMe (printValue : String) : String := printValue

/-- The three cases of the `switch` in tutorial_2's `main`. -/
inductive Branch
  | errCase
  | quotientOnly
  | withRemainder
deriving DecidableEq

/-- Which case of the `switch` in tutorial_2's `main` runs: the first
matching of `err != nil`, `reminder == 0`, `default`. -/
def switchBranch (err : Option String) (reminder : Int) : Branch :=
  if err ≠ none then .errCase
  else if reminder = 0 then .quotientOnly
  else .withRemainder

/-- The line printed by the `switch` in tutorial_2's `main`. -/
def switchOutput (err : Option String) (result reminder : Int) : String :=
  match switchBranch err reminder with
  | .errCase => err.getD ""
  | .quotientOnly => "The result of the integer division is " ++ toString result
  | .withRemainder =>
      "The result of the integer division is " ++ toString result ++
        " with remainder " ++ toString reminder

/-- Embedding of tutorial_2's `main`: the list of lines it prints, with the
program's fixed operands `numerator = 10`, `denominator = 2`. -/
def tutorial2Main : List String :=
  let printValue := "Hello World"
  let numerator : Int := 10
  let denominator : Int := 2
  let r := intDivision numerator denominator
  [printMe printValue, switchOutput r.2.2 r.1 r.2.1]

example : tutorial2Main =
    ["Hello World", "The result of the integer division is 5"] := by decide

/-- C4: the `switch` on `intDivision`'s result selects exactly one branch —
the error case exactly when the error is non-nil, the quotient-only case
exactly when the error is nil and the remainder is zero, the default case
otherwise — and with the fixed operands 10 and 2 the quotient-only line
reporting result 5 is printed. -/
theorem tutorial2_switch_exactly_one_branch :
    (∀ (err : Option String) (reminder : Int),
      (switchBranch err reminder = .errCase ↔ err ≠ none) ∧
      (switchBranch err reminder = .quotientOnly ↔ err = none ∧ reminder = 0) ∧
      (switchBranch err reminder = .withRemainder ↔ err = none ∧ reminder ≠ 0)) ∧
    switchBranch (intDivision 10 2).2.2 (intDivision 10 2).2.1 = .quotientOnly ∧
    tutorial2Main = ["Hello World", "The result of the integer division is 5"] := by
  refine ⟨?_, by decide, by decide⟩
  intro err reminder
  cases err <;> by_cases h : reminder = 0 <;> simp [switchBranch, h]

/-- A value printed by `fmt.Println` in tutorial_1, with Go's default
(`%v`) formatting modelled per kind. -/
inductive GoValue
  | vString (s : String)
  | vInt (i : Int)
  | vBool (b : Bool)
  | vFloat (mantissa : Int) (scale : Nat)
  | vComplex (re im : Int)
deriving DecidableEq

/-- Rendering of the exact decimal `mantissa / 10 ^ scale`; Go prints a
`float64` as the shortest round-tripping decimal, which for an exactly
representable literal such as `10.5` is the literal itself. -/
def goShowFloat (mantissa : Int) (scale : Nat) : String :=
  let sgn := if mantissa < 0 then "-" else ""
  let n := mantissa.natAbs
  if scale = 0 then sgn ++ toString n
  else
    let p : Nat := 10 ^ scale
    let frac := toString (n % p)
    let pad := String.mk (List.replicate (scale - frac.length) '0')
    sgn ++ toString (n / p) ++ "." ++ pad ++ frac

/-- Go's default formatting of a `complex128`, e.g. `(10+10i)`. -/
def goShowComplex (re im : Int) : String :=
  if 0 ≤ im then "(" ++ toString re ++ "+" ++ toString im ++ "i)"
  else "(" ++ toString re ++ toString im ++ "i)"

/-- Go's `fmt.Println` default rendering of one value. -/
def goShow : GoValue → String
  | .vString s => s
  | .vInt i => toString i
  | .vBool b => if b then "true" else "false"
  | .vFloat m e => goShowFloat m e
  | .vComplex re im => goShowComplex re im

/-- Embedding of tutorial_1's `main` from `src/cmd/tutorial_1/main.go`: the
lines its `fmt.Println` calls emit, in statement order. `myRune = 'a'` is
the rune (an `int32`) 97 and `rune2` is the rune zero value 0. -/
def tutorial1Main : List String :=
  let intNum : Int := 10
  let floatNum := GoValue.vFloat 105 1
  let stringNum := "10"
  let uintNum : Int := 10
  let boolNum := true
  let complexNum := GoValue.vComplex 10 10
  let myRune : Int := ('a').toNat
  let rune2 : Int := 0
  [goShow (.vString "Hello, World!"),
    goShow (.vInt intNum),
    goShow floatNum,
    goShow (.vString stringNum),
    goShow (.vInt uintNum),
    goShow (.vBool boolNum),
    goShow complexNum,
    goShow (.vInt myRune),
    goShow (.vInt rune2)]

/-- The last statement of tutorial_1's `main` is `newVar := "text"`:
it declares this variable and never uses it, and Go rejects a function
with a declared-and-unused local variable, so the file does not compile. -/
def newVar : String := "text"

/-- C6: the lines tutorial_1's `main` body would print, in order, are
exactly "Hello, World!", 10, 10.5, "10", 10, true, (10+10i), 97, 0 —
though the file itself is rejected by the Go compiler because of the
unused variable `newVar`. -/
theorem tutorial1_output :
    tutorial1Main =
      ["Hello, World!", "10", "10.5", "10", "10", "true", "(10+10i)", "97", "0"] := by
  decide

/-- Embedding of the API fragment's `CoinBalanceParams` struct. -/
structure CoinBalanceParams where
  Username : String
deriving DecidableEq

/-- Embedding of the API fragment's `CoinBalanceResponse` struct. -/
structure CoinBalanceResponse where
  Code : Int
  Balance : Int
deriving DecidableEq

/-- Embedding of the API fragment's `Error` struct: an error code and an
error message, both public fields. -/
structure Error where
  Code : Int
  Message : String
deriving DecidableEq

/-- One hexadecimal digit, lower case, as emitted by `encoding/json`. -/
def hexDigitChar (n : Nat) : Char :=
  if n < 10 then Char.ofNat ('0'.toNat + n)
  else Char.ofNat ('a'.toNat + (n - 10))

/-- Escaping of one character of a string by Go's `encoding/json` encoder
with its default HTML escaping: quote, backslash and the common control
characters get two-character escapes, other control characters and the
HTML-sensitive characters get `\u00xx` escapes, and the line and paragraph
separators U+2028/U+2029 are escaped as well. -/
def jsonEscapeChar (c : Char) : String :=
  if c = '"' then "\\\""
  else if c = '\\' then "\\\\"
  else if c = '\n' then "\\n"
  else if c = '\r' then "\\r"
  else if c = '\t' then "\\t"
  else if c.toNat < 0x20 then
    "\\u00" ++ String.mk [hexDigitChar (c.toNat / 16), hexDigitChar (c.toNat % 16)]
  else if c = '<' then "\\u003c"
  else if c = '>' then "\\u003e"
  else if c = '&' then "\\u0026"
  else if c.toNat = 0x2028 then "\\u2028"
  else if c.toNat = 0x2029 then "\\u2029"
  else String.singleton c

/-- `encoding/json` escaping of a whole string. -/
def jsonEscape (s : String) : String :=
  String.join (s.data.map jsonEscapeChar)

/-- The output of `json.NewEncoder(w).Encode` on an `Error` value: the
untagged struct is encoded with its field names in declaration order, and
`Encode` appends a newline. -/
def jsonEncodeError (e : Error) : String :=
  "\x7b\"Code\":" ++ toString e.Code ++ ",\"Message\":\"" ++
    jsonEscape e.Message ++ "\"\x7d\n"

example : jsonEncodeError ⟨400, "bad"⟩ = "\x7b\"Code\":400,\"Message\":\"bad\"\x7d\n" := by
  decide

/-- The header map of an `http.ResponseWriter`, as a list of key/value
pairs. -/
structure Header where
  entries : List (String × String)
deriving DecidableEq

/-- `Header.Set` replaces any value previously stored under the key. -/
def Header.set (h : Header) (key value : String) : Header :=
  ⟨(key, value) :: h.entries.filter (fun p => p.1 != key)⟩

/-- Lookup of a header value by key. -/
def Header.get (h : Header) (key : String) : Option String :=
  (h.entries.find? (fun p => p.1 == key)).map (fun p => p.2)

/-- The observable state of an `http.ResponseWriter`: its header map, the
status code sent (if any), and the accumulated response body. -/
structure ResponseWriter where
  header : Header
  status : Option Int
  body : String
deriving DecidableEq

/-- `w.WriteHeader(code)` sends the status code; only the first call has an
effect. -/
def ResponseWriter.writeHeader (w : ResponseWriter) (code : Int) : ResponseWriter :=
  if w.status = none then { w with status := some code } else w

/-- Writing bytes to the response appends them to the body. -/
def ResponseWriter.write (w : ResponseWriter) (s : String) : ResponseWriter :=
  { w with body := w.body ++ s }

/-- A response writer before any handler has touched it. -/
def newResponseWriter : ResponseWriter := ⟨⟨[]⟩, none, ""⟩

/-- Embedding of `writeError` from the API fragment: it builds
`Error{Code: code, Message: message}`, sets the `Content-type` header to
`application/json`, writes the status code, and encodes the struct to the
body. -/
def writeError (w : ResponseWriter) (message : String) (code : Int) : ResponseWriter :=
  let resp : Error := { Code := code, Message := message }
  let w := { w with header := w.header.set "Content-type" "application/json" }
  let w := w.writeHeader code
  w.write (jsonEncodeError resp)

/-- Embedding of `RequestErrorHandler`: `writeError` with the error's
message and `http.StatusBadRequest` (400). -/
def RequestErrorHandler (w : ResponseWriter) (err : String) : ResponseWriter :=
  writeError w err 400

/-- Embedding of `InternalErrorHandler`: `writeError` with the fixed
message and `http.StatusInternalServerError` (500). -/
def InternalErrorHandler (w : ResponseWriter) : ResponseWriter :=
  writeError w "An Unexpected error ocurred" 500

/-- C3: for every message and status code, `writeError` sets the
`Content-type` header to `application/json`, writes the given status code,
and writes as body exactly the JSON encoding of
`Error{Code: code, Message: message}`. -/
theorem writeError_spec (message : String) (code : Int) :
    (writeError newResponseWriter message code).header.get "Content-type" =
        some "application/json" ∧
    (writeError newResponseWriter message code).status = some code ∧
    (writeError newResponseWriter message code).body =
        jsonEncodeError ⟨code, message⟩ := by
  simp [writeError, newResponseWriter, ResponseWriter.writeHeader,
    ResponseWriter.write, Header.set, Header.get]

/-- C9: `RequestErrorHandler` responds with status 400 and a body carrying
the given error's message, and `InternalErrorHandler` responds with status
500 and the fixed message "An Unexpected error ocurred". -/
theorem errorHandlers_spec (err : String) :
    (RequestErrorHandler newResponseWriter err).status = some 400 ∧
    (RequestErrorHandler newResponseWriter err).body = jsonEncodeError ⟨400, err⟩ ∧
    (InternalErrorHandler newResponseWriter).status = some 500 ∧
    (InternalErrorHandler newResponseWriter).body =
        jsonEncodeError ⟨500, "An Unexpected error ocurred"⟩ := by
  simp [RequestErrorHandler, InternalErrorHandler, writeError, newResponseWriter,
    ResponseWriter.writeHeader, ResponseWriter.write]

/-- A field of a Go struct declaration. -/
structure GoField where
  name : String
deriving DecidableEq

/-- A Go struct declaration: its name, its fields in declaration order, and
the methods declared on it. -/
structure GoStructDecl where
  name : String
  fields : List GoField
  methods : List String
deriving DecidableEq

/-- The struct declarations of the API fragment, in source order; the
fragment declares no method on any of them. -/
def apiStructDecls : List GoStructDecl :=
  [⟨"CoinBalanceParams", [⟨"Username"⟩], []⟩,
    ⟨"CoinBalanceResponse", [⟨"Code"⟩, ⟨"Balance"⟩], []⟩,
    ⟨"Error", [⟨"Code"⟩, ⟨"Message"⟩], []⟩]

/-- A Go identifier is public (exported) iff its first character is upper
case. -/
def isExportedName (s : String) : Bool :=
  match s.data with
  | [] => false
  | c :: _ => c.isUpper

/-- C5 counterexample: the API fragment does not declare exactly two
structs — `apiStructDecls` has three entries. -/
theorem apiStructDecls_count_ne_two : ¬ apiStructDecls.length = 2 := by
  decide

/-- C5 (amended): the API fragment declares exactly three structs —
`CoinBalanceParams`, `CoinBalanceResponse` and `Error` — each with only
public fields and no methods. -/
theorem apiStructDecls_three_public_no_methods :
    apiStructDecls.length = 3 ∧
    (apiStructDecls.map GoStructDecl.name) =
      ["CoinBalanceParams", "CoinBalanceResponse", "Error"] ∧
    ∀ s ∈ apiStructDecls,
      (∀ f ∈ s.fields, isExportedName f.name = true) ∧ s.methods = [] := by
  decide

end Golang
